import Mathlib

/-!
Shallow embedding of the guardrail decision pipeline
(`apps/guardrails/{engine,cache,schemas,text_injection,text_policy,
text_food_domain,image_hygiene,image_food_clip}.py`).

Modelling conventions:
* Python `str` is embedded as `List Char` (`Str`); byte strings as `List Nat`.
* The external ML collaborators (sentence-transformer embedding, CLIP
  classification, PIL decoding, food-type identification) are modelled as
  oracle values carried in an `Oracles` record: each is the outcome the
  collaborator produces for the single request under consideration
  (`Except` for calls that may raise).
* `hashlib.sha256(...).hexdigest()` is modelled by abstract functions
  `sha : Str → Str` (digest of a UTF-8 encoded string) and
  `shaB : List Nat → Str` (digest of raw bytes); collision-freedom is an
  explicit hypothesis where a theorem needs it.
* The Django cache is an association list with most-recent-first lookup;
  TTL/eviction is not modelled (the claims assume no eviction).
* Scores/metadata dicts are association lists of `ScoreVal` / a record of
  the optional keys the code actually uses.
-/

set_option maxRecDepth 40000

namespace Guardrail

/-- Python `str` values. -/
abbrev Str := List Char

/-- Convert a Lean string literal to the embedded representation. -/
def chars (s : String) : Str := s.data

/-- Python whitespace class `\s` (ASCII part): space, tab, newline,
carriage return, form feed, vertical tab. -/
def pySpace (c : Char) : Bool :=
  c = ' ' || c = '\t' || c = '\n' || c = '\r' || c = '\x0c' || c = '\x0b'

/-- Regex word character `\w` (ASCII part): letters, digits, underscore. -/
def wordChar (c : Char) : Bool := c.isAlphanum || c = '_'

/-- The regex `.` metacharacter: any character except newline. -/
def dotChar (c : Char) : Bool := c != '\n'

/-- Python `str.lower()` (ASCII case folding). -/
def lowerStr (s : Str) : Str := s.map Char.toLower

/-- Python `str.strip()`: drop leading and trailing whitespace. -/
def stripStr (s : Str) : Str :=
  ((s.dropWhile pySpace).reverse.dropWhile pySpace).reverse

/-- Python substring test `pat in hay`. -/
def containsSub (hay pat : Str) : Bool :=
  match hay with
  | [] => pat.isEmpty
  | c :: t => pat.isPrefixOf (c :: t) || containsSub t pat

/-- Helper for `str.split()`: accumulate the current word (reversed). -/
def splitWsGo (acc : Str) : Str → List Str
  | [] => if acc.isEmpty then [] else [acc.reverse]
  | c :: t =>
    if pySpace c then
      if acc.isEmpty then splitWsGo [] t else acc.reverse :: splitWsGo [] t
    else splitWsGo (c :: acc) t

/-- Python `str.split()` with no argument: split on whitespace runs,
discarding empty fields. -/
def splitWs (s : Str) : List Str := splitWsGo [] s

/-!
Hand-compiled backtracking matchers for the three regexes in
`text_food_domain.py`.  Python `re.search` semantics: leftmost match
position wins; at a position, alternatives are tried in order, `.*` and
`\s+` are greedy with backtracking, `(.+?)` is lazy, `.` excludes newline
and `\b` is a word/non-word transition.
-/

/-- Number of leading characters matchable by `.` (stops at a newline). -/
def dotLen (r : Str) : Nat := (r.takeWhile dotChar).length

/-- Word boundary test for a position whose following character is a word
character: the preceding character (if any) must not be a word character. -/
def boundaryBefore (prev : Option Char) : Bool :=
  match prev with
  | none => true
  | some pc => !wordChar pc

/-- Word boundary after a literal that ends in a word character: the next
character (if any) must not be a word character. -/
def boundaryAfter (r : Str) : Bool :=
  match r with
  | [] => true
  | c :: _ => !wordChar c

/-- Greedy `.*sub` followed by continuation `cont`, backtracking from the
longest dot-matchable skip `i` down to `0`; returns the continuation's
payload for the first (longest-skip) success. -/
def scanGreedy (sub : Str) (cont : Str → Option Str) : Nat → Str → Option Str
  | i, r =>
    (if sub.isPrefixOf (r.drop i) then cont ((r.drop i).drop sub.length)
     else none) <|>
    (match i with
     | 0 => none
     | j + 1 => scanGreedy sub cont j r)

/-- Lazy continuation of `(.+?)(?:\s|$)` after at least one character has
been consumed into `acc`: stop at the first whitespace or at the end of
input, otherwise extend by any non-newline character. -/
def lazyExtend (acc : Str) : Str → Option Str
  | [] => some acc
  | c :: t =>
    if pySpace c then some acc
    else if dotChar c then lazyExtend (acc ++ [c]) t
    else none

/-- Match `(.+?)(?:\s|$)` at `r`, returning the group text. -/
def lazySubject : Str → Option Str
  | [] => none
  | c :: t => if dotChar c then lazyExtend [c] t else none

/-- Match `\s+(.+?)(?:\s|$)` at `r`, backtracking the greedy `\s+` from the
full whitespace run down to a single character. -/
def wsThenSubject (r : Str) : Option Str :=
  wsBacktrack ((r.takeWhile pySpace).length) r
where
  wsBacktrack : Nat → Str → Option Str
    | 0, _ => none
    | j + 1, r => lazySubject (r.drop (j + 1)) <|> wsBacktrack j r

/-- Match `.*of\s+(.+?)(?:\s|$)` at `r`. -/
def ofThenSubject (r : Str) : Option Str :=
  scanGreedy (chars "of") wsThenSubject (dotLen r) r

/-- Match `.*image.*of\s+(.+?)(?:\s|$)` at `r` (the part of the
`image_of_pattern` regex that follows the verb alternation). -/
def imageOfTail (r : Str) : Option Str :=
  scanGreedy (chars "image") ofThenSubject (dotLen r) r

/-- Verb alternation of the `image_of_pattern` regex. -/
def IMAGE_OF_VERBS : List Str :=
  [chars "generate", chars "create", chars "make", chars "show", chars "display"]

/-- Attempt of the `image_of_pattern` regex anchored at one position: the
position must be a word boundary and one of the verb alternatives (tried
in order) must match, followed by the tail of the pattern. -/
def imageOfAt (prev : Option Char) (r : Str) : Option Str :=
  if boundaryBefore prev then
    IMAGE_OF_VERBS.findSome? fun v =>
      if v.isPrefixOf r then imageOfTail (r.drop v.length) else none
  else none

/-- Search loop for
`\b(generate|create|make|show|display).*image.*of\s+(.+?)(?:\s|$)`:
walk the text left to right carrying the previous character, and at each
position try an anchored match; returns group 2 of the leftmost match. -/
def imageOfSearch : Option Char → Str → Option Str
  | prev, [] => imageOfAt prev []
  | prev, c :: t => imageOfAt prev (c :: t) <|> imageOfSearch (some c) t

/-- Match one of `nouns` at `r` followed by a `\b` word boundary. -/
def nounWithBoundary (nouns : List Str) (r : Str) : Bool :=
  nouns.any fun n => n.isPrefixOf r && boundaryAfter (r.drop n.length)

/-- Match `\s+(a\s+)?(noun1|...)\b` at `r`.  The nouns start with letters,
so each greedy `\s+` can only succeed by consuming a full (non-empty)
whitespace run. -/
def wsOptAThenNoun (nouns : List Str) (r : Str) : Bool :=
  let k := (r.takeWhile pySpace).length
  if k = 0 then false
  else
    let rest := r.drop k
    nounWithBoundary nouns rest ||
    (match rest with
     | c :: t =>
       c = 'a' &&
       (let k2 := (t.takeWhile pySpace).length
        decide (0 < k2) && nounWithBoundary nouns (t.drop k2))
     | [] => false)

/-- Existence of a split `.*sub` + continuation, over skips `i` down to 0. -/
def existsSkip (sub : Str) (cont : Str → Bool) : Nat → Str → Bool
  | i, r =>
    (sub.isPrefixOf (r.drop i) && cont ((r.drop i).drop sub.length)) ||
    (match i with
     | 0 => false
     | j + 1 => existsSkip sub cont j r)

/-- Match `.*image.*of\s+(a\s+)?(nouns)\b` at `r`. -/
def imageOfNounTail (nouns : List Str) (r : Str) : Bool :=
  existsSkip (chars "image")
    (fun r2 => existsSkip (chars "of") (fun r3 => wsOptAThenNoun nouns r3) (dotLen r2) r2)
    (dotLen r) r

/-- Verb alternation of the two `NON_FOOD_PATTERNS` regexes. -/
def NON_FOOD_VERBS : List Str := [chars "generate", chars "create", chars "make"]

/-- Anchored attempt of a `NON_FOOD_PATTERNS` regex at one position. -/
def nonFoodAt (nouns : List Str) (prev : Option Char) (r : Str) : Bool :=
  boundaryBefore prev &&
    NON_FOOD_VERBS.any fun v =>
      v.isPrefixOf r && imageOfNounTail nouns (r.drop v.length)

/-- Existence of a match of
`\b(generate|create|make).*image.*of\s+(a\s+)?(nouns)\b` anywhere in the
text (walked with the previous character for the `\b` test). -/
def nonFoodSearch (nouns : List Str) : Option Char → Str → Bool
  | prev, [] => nonFoodAt nouns prev []
  | prev, c :: t => nonFoodAt nouns prev (c :: t) || nonFoodSearch nouns (some c) t

/-- Noun alternation of the first `NON_FOOD_PATTERNS` regex. -/
def NON_FOOD_NOUNS_1 : List Str :=
  [chars "person", chars "people", chars "man", chars "woman", chars "boy",
   chars "girl", chars "child", chars "baby", chars "portrait"]

/-- Noun alternation of the second `NON_FOOD_PATTERNS` regex. -/
def NON_FOOD_NOUNS_2 : List Str :=
  [chars "celebrity", chars "actor", chars "actress", chars "model",
   chars "singer", chars "artist"]

/-- Word alternation of the `looks_like_person` regex in
`check_food_domain`. -/
def PERSON_WORDS : List Str :=
  [chars "emma", chars "watson", chars "hitler", chars "person",
   chars "people", chars "man", chars "woman", chars "celebrity", chars "actor"]

/-- Existence of a match of `\b(emma|watson|...|actor)\b` in the text. -/
def personWordSearch : Option Char → Str → Bool
  | prev, [] => boundaryBefore prev && nounWithBoundary PERSON_WORDS []
  | prev, c :: t =>
    (boundaryBefore prev && nounWithBoundary PERSON_WORDS (c :: t)) ||
    personWordSearch (some c) t

/-!
Data model (`schemas.py` dataclass `GuardrailResult`, with the dynamic
`scores` and `metadata` dicts embedded as an association list and a record
of the keys the pipeline actually writes).
-/

/-- Decision status; the source uses the string constants
`"PASS"` / `"BLOCK"`. -/
inductive Status where
  | PASS
  | BLOCK
deriving DecidableEq, Repr

/-- Handle to a decoded, sanitized PIL image (an external resource; only
its identity matters to the pipeline logic). -/
structure PILImage where
  id : Nat
deriving DecidableEq, Repr

/-- Result of `identify_food_type` (a dict with keys `food_type`,
`confidence`, `top_matches`). -/
structure FoodInfo where
  food_type : Str
  confidence : ℚ
  top_matches : List (Str × ℚ)
deriving DecidableEq, Repr

/-- A value stored in the `scores` dict: the pipeline stores numbers,
strings and (for `matched_keywords`) lists of strings. -/
inductive ScoreVal where
  | num (q : ℚ)
  | str (s : Str)
  | strList (l : List Str)
deriving DecidableEq, Repr

/-- The `metadata` dict, restricted to the keys the pipeline writes:
`pil_image`, `use_case`, `food_identification`, `has_image`.  A missing
key is `none`. -/
structure Meta where
  pil_image : Option PILImage
  use_case : Option Str
  food_identification : Option FoodInfo
  has_image : Option Bool
deriving DecidableEq, Repr

/-- The empty `metadata` dict (the dataclass default). -/
def Meta.empty : Meta := ⟨none, none, none, none⟩

/-- The `GuardrailResult` dataclass. -/
structure GuardrailResult where
  status : Status
  reasons : List Str
  scores : List (Str × ScoreVal)
  metadata : Meta
deriving DecidableEq, Repr

/-- Python dict assignment `m[k] = v`: overwrite in place if the key is
present, otherwise append (insertion order is preserved). -/
def setKey (m : List (Str × ScoreVal)) (k : Str) (v : ScoreVal) :
    List (Str × ScoreVal) :=
  if m.any (fun e => decide (e.1 = k)) then
    m.map (fun e => if e.1 = k then (k, v) else e)
  else m ++ [(k, v)]

/-- Python `m.get(k, dflt)`. -/
def getKeyD (m : List (Str × ScoreVal)) (k : Str) (dflt : ScoreVal) : ScoreVal :=
  match m.find? (fun e => decide (e.1 = k)) with
  | some e => e.2
  | none => dflt

/-!
Oracles: outcomes of the external collaborator calls for the single
request under consideration.  `Except.error e` models a raised exception
whose `str(e)` is `e`.
-/

/-- External collaborator outcomes for one request. -/
structure Oracles where
  /-- Outcome of the sentence-transformer stage of `check_food_domain`:
  the maximum cosine similarity against `ALLOWLIST_INTENTS`, or the
  exception the collaborator raised. -/
  emb : Except Str ℚ
  /-- Outcome of the CLIP validation call of `check_food_clip`: the
  softmax probability vector over `POS_LABELS ++ NEG_LABELS`, or the
  exception raised. -/
  clip : Except Str (List ℚ)
  /-- Outcome of `identify_food_type` (that helper catches its own
  exceptions and always returns a dict, so no `Except` here). -/
  identify : FoodInfo
  /-- Outcome of the PIL open / EXIF-strip / RGB-convert interaction in
  `check_hygiene`: decoded width, height and the sanitized image handle,
  or the exception raised. -/
  decode : Except Str (Nat × Nat × PILImage)
  /-- Rendering of a score by the `:.2f` format specifier (pure text
  formatting; only used inside reason strings). -/
  fmt2 : ℚ → Str

/-!
Text check stages (`text_injection.py`, `text_policy.py`,
`text_food_domain.py`).
-/

/-- The `INJECTION_PATTERNS`.  All patterns are literal strings, so
`re.search` on the lowercased text is a substring test.  (`DAN mode`
contains upper-case letters and can never match the lowercased text;
it is kept verbatim.) -/
def INJECTION_PATTERNS : List Str :=
  [chars "ignore previous", chars "system prompt", chars "developer message",
   chars "bypass safety", chars "jailbreak", chars "DAN mode",
   chars "do anything now"]

/-- Embeds `check_injection` from `text_injection.py`. -/
def check_injection (text : Str) : GuardrailResult :=
  let text_lower := lowerStr text
  match INJECTION_PATTERNS.find? (fun p => containsSub text_lower p) with
  | some p =>
    ⟨.BLOCK, [chars "Potential prompt injection detected: " ++ p], [], Meta.empty⟩
  | none =>
    let words := splitWs text
    if words.any (fun w => decide (w.length > 40) && !((chars "http").isPrefixOf w)) then
      ⟨.BLOCK, [chars "Suspicious long string detected"], [], Meta.empty⟩
    else ⟨.PASS, [], [], Meta.empty⟩

/-- The `DENYLIST_TERMS` from `text_policy.py`. -/
def DENYLIST_TERMS : List Str :=
  [chars "nude", chars "naked", chars "sex", chars "porn", chars "xxx",
   chars "kill", chars "murder", chars "suicide", chars "hurt", chars "blood",
   chars "gore", chars "hate", chars "racist", chars "nazi",
   chars "scam", chars "fraud", chars "credit card", chars "ssn",
   chars "child", chars "minor", chars "kid"]

/-- Python `", ".join(l)`. -/
def joinComma (l : List Str) : Str := List.intercalate (chars ", ") l

/-- Embeds `check_policy` from `text_policy.py`. -/
def check_policy (text : Str) : GuardrailResult :=
  let text_lower := lowerStr text
  let found_terms := DENYLIST_TERMS.filter (fun t => containsSub text_lower t)
  if found_terms.isEmpty then ⟨.PASS, [], [], Meta.empty⟩
  else
    ⟨.BLOCK, [chars "Policy violation: " ++ joinComma found_terms], [], Meta.empty⟩

/-- The `FOOD_ITEMS` from `text_food_domain.py` (the duplicate `"pasta"`
entry of the source list is kept). -/
def FOOD_ITEMS : List Str :=
  [chars "pizza", chars "burger", chars "pasta", chars "sandwich", chars "salad",
   chars "soup", chars "sushi", chars "taco", chars "burrito",
   chars "curry", chars "stir fry", chars "noodles", chars "ramen",
   chars "dumpling", chars "spring roll", chars "sushi roll",
   chars "breakfast", chars "lunch", chars "dinner", chars "brunch",
   chars "snack", chars "appetizer", chars "dessert",
   chars "cake", chars "bread", chars "cookie", chars "pie", chars "pastry",
   chars "muffin", chars "donut", chars "croissant",
   chars "steak", chars "chicken", chars "beef", chars "pork", chars "lamb",
   chars "fish", chars "seafood", chars "shrimp", chars "crab", chars "lobster",
   chars "rice", chars "quinoa", chars "pasta", chars "noodle", chars "potato",
   chars "fries", chars "mashed potato",
   chars "vegetable", chars "fruit", chars "apple", chars "banana",
   chars "orange", chars "strawberry", chars "grape",
   chars "tomato", chars "lettuce", chars "onion", chars "garlic",
   chars "pepper", chars "carrot", chars "broccoli", chars "spinach",
   chars "coffee", chars "tea", chars "juice", chars "smoothie",
   chars "milkshake", chars "soda", chars "wine", chars "beer",
   chars "recipe", chars "cooking", chars "baking", chars "grilling",
   chars "roasting", chars "frying", chars "steaming", chars "boiling",
   chars "restaurant", chars "cafe", chars "bakery", chars "menu",
   chars "chef", chars "cuisine", chars "dish", chars "meal", chars "food"]

/-- Stage 0 fast-block test of `check_food_domain` on the lowercased,
stripped text: the `image_of_pattern` person check, then the two
`NON_FOOD_PATTERNS` (each of which blocks only when the whole text also
has no food item).  All branches produce the identical block result. -/
def domain_stage0_block (text_lower : Str) : Bool :=
  (match imageOfSearch none text_lower with
   | some subjRaw =>
     let subject := stripStr subjRaw
     let is_food_item := FOOD_ITEMS.any (fun item => containsSub subject item)
     let looks_like_person := personWordSearch none subject
     looks_like_person && !is_food_item
   | none => false) ||
  (let has_food_item := FOOD_ITEMS.any (fun item => containsSub text_lower item)
   (nonFoodSearch NON_FOOD_NOUNS_1 none text_lower ||
    nonFoodSearch NON_FOOD_NOUNS_2 none text_lower) && !has_food_item)

/-- Keyword fast-path matches of `check_food_domain` stage A. -/
def domain_keyword_matches (text_lower : Str) : List Str :=
  FOOD_ITEMS.filter (fun item => containsSub text_lower item)

/-- The block result shared by both stage 0 branches. -/
def domain_pattern_block_result : GuardrailResult :=
  ⟨.BLOCK, [chars "Prompt does not contain food-related items or context"],
   [(chars "domain_score", .num 0), (chars "method", .str (chars "pattern_block"))],
   Meta.empty⟩

/-- Embeds `check_food_domain` from `text_food_domain.py`.  The source default
for `threshold` is `0.55`; callers that rely on the default pass `11/20`
here.  The embedding collaborator outcome is `o.emb`. -/
def check_food_domain (o : Oracles) (text : Str) (threshold : ℚ) : GuardrailResult :=
  let text_lower := stripStr (lowerStr text)
  if domain_stage0_block text_lower then domain_pattern_block_result
  else
    let keyword_matches := domain_keyword_matches text_lower
    if !keyword_matches.isEmpty then
      ⟨.PASS, [],
       [(chars "domain_score", .num (19/20)),
        (chars "method", .str (chars "keyword_match")),
        (chars "matched_keywords", .strList (keyword_matches.take 5))],
       Meta.empty⟩
    else
      match o.emb with
      | .ok max_score =>
        if max_score < threshold then
          ⟨.BLOCK,
           [chars "Prompt not related to food items or context (score: " ++
            o.fmt2 max_score ++ chars ")"],
           [(chars "domain_score", .num max_score),
            (chars "method", .str (chars "embedding"))],
           Meta.empty⟩
        else
          ⟨.PASS, [],
           [(chars "domain_score", .num max_score),
            (chars "method", .str (chars "embedding"))],
           Meta.empty⟩
      | .error e =>
        ⟨.BLOCK, [chars "Domain check failed: " ++ e], [], Meta.empty⟩

/-!
Image check stage (`image_food_clip.py`).
-/

/-- The `POS_LABELS` from `image_food_clip.py`. -/
def POS_LABELS : List Str :=
  [chars "a photo of food", chars "a meal", chars "a dish",
   chars "ingredients", chars "cooking"]

/-- The `NEG_LABELS` from `image_food_clip.py`. -/
def NEG_LABELS : List Str :=
  [chars "a nude person", chars "nudity", chars "naked person",
   chars "explicit nudity", chars "porn", chars "pornography",
   chars "sexual content", chars "adult content",
   chars "weapon", chars "gun", chars "knife", chars "violence",
   chars "gore", chars "blood", chars "death",
   chars "a face portrait", chars "portrait", chars "person", chars "people",
   chars "document", chars "text", chars "paper", chars "child", chars "minor"]

/-- NSFW-indicative substrings used to flavor the block reason. -/
def NSFW_TERMS : List Str :=
  [chars "nude", chars "naked", chars "porn", chars "sexual", chars "adult"]

/-- Embeds `check_food_clip` from `image_food_clip.py`.  The CLIP collaborator
call is `o.clip`; `identify_food_type` (which never propagates an
exception) is `o.identify`.  Python's `max` on an empty slice raises,
which the surrounding `except` turns into a block; the `Option`-valued
`max?` mirrors this.  The source default `margin=0.1` is passed as `1/10`
by callers relying on it. -/
def check_food_clip (o : Oracles) (_pil_image : Option PILImage)
    (margin : ℚ) (identify_type : Bool) : GuardrailResult :=
  match o.clip with
  | .error e => ⟨.BLOCK, [chars "CLIP check failed: " ++ e], [], Meta.empty⟩
  | .ok probs =>
    let pos_probs := probs.take POS_LABELS.length
    let neg_probs := probs.drop POS_LABELS.length
    match pos_probs.max? with
    | none =>
      ⟨.BLOCK, [chars "CLIP check failed: max() arg is an empty sequence"], [], Meta.empty⟩
    | some max_pos =>
      match neg_probs.max? with
      | none =>
        ⟨.BLOCK, [chars "CLIP check failed: max() arg is an empty sequence"], [], Meta.empty⟩
      | some max_neg =>
          if max_pos < max_neg + margin then
            let neg_label_idx := neg_probs.indexOf max_neg
            match NEG_LABELS.get? neg_label_idx with
            | none =>
              ⟨.BLOCK, [chars "CLIP check failed: list index out of range"], [], Meta.empty⟩
            | some neg_label =>
              let is_nsfw := NSFW_TERMS.any (fun t => containsSub (lowerStr neg_label) t)
              let reason :=
                if is_nsfw then chars "NSFW content detected: " ++ neg_label
                else
                  chars "Image not clearly food (pos: " ++ o.fmt2 max_pos ++
                  chars ", neg: " ++ o.fmt2 max_neg ++ chars ")"
              ⟨.BLOCK, [reason],
               [(chars "food_score", .num max_pos),
                (chars "non_food_score", .num max_neg),
                (chars "top_negative_label", .str neg_label)],
               Meta.empty⟩
          else
            let scores := [(chars "food_score", .num max_pos),
                           (chars "non_food_score", .num max_neg)]
            if identify_type then
              let food_info := o.identify
              let scores := setKey scores (chars "identified_food") (.str food_info.food_type)
              let scores := setKey scores (chars "food_type_confidence") (.num food_info.confidence)
              ⟨.PASS, [], scores, ⟨none, none, some food_info, none⟩⟩
            else ⟨.PASS, [], scores, Meta.empty⟩

/-!
Hygiene sanitizer (`image_hygiene.py`) and policy constants
(`foodguard/settings.py`).
-/

/-- The `GUARDRAILS_MAX_PROMPT_CHARS` from `settings.py`. -/
def GUARDRAILS_MAX_PROMPT_CHARS : Nat := 800

/-- The `GUARDRAILS_MAX_IMAGE_BYTES` from `settings.py`. -/
def GUARDRAILS_MAX_IMAGE_BYTES : Nat := 5 * 1024 * 1024

/-- The `GUARDRAILS_MAX_PIXELS` from `settings.py`. -/
def GUARDRAILS_MAX_PIXELS : Nat := 1536 * 1536

/-- Embeds `check_hygiene` from `image_hygiene.py`.  The whole PIL interaction of
the `try` block (open, EXIF strip by pixel copy, RGB convert) is the
`o.decode` collaborator outcome. -/
def check_hygiene (o : Oracles) (image_bytes : List Nat) : GuardrailResult :=
  if image_bytes.length > GUARDRAILS_MAX_IMAGE_BYTES then
    ⟨.BLOCK, [chars "Image too large"], [], Meta.empty⟩
  else
    match o.decode with
    | .error e => ⟨.BLOCK, [chars "Invalid image: " ++ e], [], Meta.empty⟩
    | .ok (w, h, img) =>
      if w * h > GUARDRAILS_MAX_PIXELS then
        ⟨.BLOCK, [chars "Image dimensions too large"], [], Meta.empty⟩
      else ⟨.PASS, [], [], ⟨some img, none, none, none⟩⟩

/-!
Fingerprint and decision cache (`cache.py`).  The Django cache is an
association list, newest entry first; `cache.set` prepends and
`cache.get` returns the most recent value for the key.  The TTL argument
(`timeout=3600`) is not modelled: the claims assume no eviction.
-/

/-- The cache state. -/
abbrev Cache := List (Str × GuardrailResult)

/-- The key format `"guardrail:" + request_hash`. -/
def cacheKey (request_hash : Str) : Str := chars "guardrail:" ++ request_hash

/-- Embeds `compute_hash` from `cache.py`:
`sha256(f"{prompt}|{image_hash or ''}".encode()).hexdigest()`.
`sha` is the abstract sha256-hexdigest collaborator; `image_hash or ''`
maps both `None` and the empty string to the empty string. -/
def compute_hash (sha : Str → Str) (prompt : Str) (image_hash : Option Str) : Str :=
  sha (prompt ++ '|' ::
    (match image_hash with
     | some h => if h.isEmpty then [] else h
     | none => []))

/-- Embeds `get_cached_decision` from `cache.py`.  A stored value is a non-empty
dict, hence always truthy, so `if data:` is a presence test. -/
def get_cached_decision (c : Cache) (request_hash : Str) : Option GuardrailResult :=
  (c.find? (fun e => decide (e.1 = cacheKey request_hash))).map (fun e => e.2)

/-- Embeds `cache_decision` from `cache.py`: serializes status, reasons, scores
and metadata of the result and stores them under the request key. -/
def cache_decision (c : Cache) (request_hash : Str) (result : GuardrailResult) : Cache :=
  (cacheKey request_hash, result) :: c

/-!
The engine (`engine.py`, class `GuardrailEngine`).  The methods are
embedded as functions threading the cache state explicitly; each returns
the produced `GuardrailResult` together with the cache after the call.
-/

/-- The `IMAGE_ANALYSIS_PROMPT_PATTERNS` from `engine.py`. -/
def IMAGE_ANALYSIS_PROMPT_PATTERNS : List Str :=
  [chars "generate image with this image attached in center of the background",
   chars "generate image with this image attached in center",
   chars "generate image with this image in center",
   chars "create image with this image in center"]

/-- Python truthiness of the optional `image_bytes` argument: `None` and
the empty byte string are falsy. -/
def truthyBytes : Option (List Nat) → Bool
  | none => false
  | some bs => !bs.isEmpty

/-- Embeds `GuardrailEngine._is_image_analysis_use_case`. -/
def is_image_analysis_use_case (prompt : Str) (image_bytes : Option (List Nat)) : Bool :=
  if !truthyBytes image_bytes then false
  else
    let prompt_lower := stripStr (lowerStr prompt)
    IMAGE_ANALYSIS_PROMPT_PATTERNS.any fun pattern =>
      containsSub prompt_lower (lowerStr pattern)

/-- Embeds `GuardrailEngine._block`: build a BLOCK result, cache it under the
request hash, and return it.  The Python `isinstance(reasons, str)`
wrapping is performed at the call sites (a single string becomes a
singleton list).  `scores=None` defaults to the empty dict. -/
def engine_block (c : Cache) (reasons : List Str) (request_hash : Str)
    (scores : List (Str × ScoreVal)) : GuardrailResult × Cache :=
  let result : GuardrailResult := ⟨.BLOCK, reasons, scores, Meta.empty⟩
  (result, cache_decision c request_hash result)

/-- Embeds `GuardrailEngine.process_image_analysis` (use case 1).  The route
guard guarantees non-empty image bytes. -/
def process_image_analysis (o : Oracles) (c : Cache) (_prompt : Str)
    (image_bytes : List Nat) (request_hash : Str) : GuardrailResult × Cache :=
  let res := check_hygiene o image_bytes
  if res.status = .BLOCK then engine_block c res.reasons request_hash []
  else
    let pil_image := res.metadata.pil_image
    let res := check_food_clip o pil_image (1/10) true
    if res.status = .BLOCK then engine_block c res.reasons request_hash res.scores
    else
      let image_scores := res.scores
      let food_identification := res.metadata.food_identification
      let final_result : GuardrailResult :=
        ⟨.PASS, [], image_scores,
         ⟨pil_image, some (chars "image_analysis"), food_identification, none⟩⟩
      let cached : GuardrailResult := ⟨.PASS, [], final_result.scores, Meta.empty⟩
      (final_result, cache_decision c request_hash cached)

/-- Embeds `GuardrailEngine.process_prompt_analysis` (use case 2). -/
def process_prompt_analysis (o : Oracles) (c : Cache) (prompt : Str)
    (image_bytes : Option (List Nat)) (request_hash : Str) : GuardrailResult × Cache :=
  if prompt.length > GUARDRAILS_MAX_PROMPT_CHARS then
    engine_block c [chars "Prompt too long"] request_hash []
  else
    let res := check_injection prompt
    if res.status = .BLOCK then engine_block c res.reasons request_hash []
    else
      let res := check_policy prompt
      if res.status = .BLOCK then engine_block c res.reasons request_hash []
      else
        let res := check_food_domain o prompt (11/20)
        if res.status = .BLOCK then engine_block c res.reasons request_hash res.scores
        else
          let combined_scores := res.scores
          if truthyBytes image_bytes then
            let res := check_hygiene o (image_bytes.getD [])
            if res.status = .BLOCK then
              engine_block c
                (res.reasons.map (fun r => chars "Image validation failed: " ++ r))
                request_hash []
            else
              let pil_image := res.metadata.pil_image
              let res := check_food_clip o pil_image (1/10) true
              if res.status = .BLOCK then
                engine_block c
                  (res.reasons.map (fun r => chars "Image validation failed: " ++ r))
                  request_hash res.scores
              else
                let combined_scores := setKey combined_scores (chars "image_food_score")
                  (getKeyD res.scores (chars "food_score") (.num 0))
                let combined_scores := setKey combined_scores (chars "image_non_food_score")
                  (getKeyD res.scores (chars "non_food_score") (.num 0))
                let combined_scores := setKey combined_scores (chars "image_identified_food")
                  (getKeyD res.scores (chars "identified_food") (.str (chars "unknown")))
                let combined_scores := setKey combined_scores (chars "image_food_type_confidence")
                  (getKeyD res.scores (chars "food_type_confidence") (.num 0))
                let food_identification := res.metadata.food_identification
                let metadata : Meta :=
                  if pil_image.isSome then
                    ⟨pil_image, some (chars "prompt_analysis"), food_identification, some true⟩
                  else ⟨none, some (chars "prompt_analysis"), none, some false⟩
                let final_result : GuardrailResult :=
                  ⟨.PASS, [], combined_scores, metadata⟩
                let cached : GuardrailResult := ⟨.PASS, [], final_result.scores, Meta.empty⟩
                (final_result, cache_decision c request_hash cached)
          else
            let metadata : Meta :=
              ⟨none, some (chars "prompt_analysis"), none, some false⟩
            let final_result : GuardrailResult :=
              ⟨.PASS, [], combined_scores, metadata⟩
            let cached : GuardrailResult := ⟨.PASS, [], final_result.scores, Meta.empty⟩
            (final_result, cache_decision c request_hash cached)

/-- The fingerprint computed inline at the top of
`GuardrailEngine.process_request`: the image hash is taken only when the
image bytes are truthy (present and non-empty). -/
def request_fingerprint (sha : Str → Str) (shaB : List Nat → Str)
    (prompt : Str) (image_bytes : Option (List Nat)) : Str :=
  let image_hash : Option Str :=
    if truthyBytes image_bytes then some (shaB (image_bytes.getD [])) else none
  compute_hash sha prompt image_hash

/-- Embeds `GuardrailEngine.process_request`: compute the fingerprint, return a
cache hit immediately, otherwise route to the matching use case. -/
def process_request (sha : Str → Str) (shaB : List Nat → Str) (o : Oracles)
    (c : Cache) (prompt : Str) (image_bytes : Option (List Nat)) :
    GuardrailResult × Cache :=
  let request_hash := request_fingerprint sha shaB prompt image_bytes
  match get_cached_decision c request_hash with
  | some cached_result => (cached_result, c)
  | none =>
    if is_image_analysis_use_case prompt image_bytes then
      process_image_analysis o c prompt (image_bytes.getD []) request_hash
    else
      process_prompt_analysis o c prompt image_bytes request_hash

/-!
Auxiliary notions used by the theorems.
-/

/-- The reasons/status invariant of a `GuardrailResult`: the reasons list
is non-empty exactly when the status is BLOCK (equivalently, empty exactly
when it is PASS, since the status type has only the two values). -/
def ReasonsOk (r : GuardrailResult) : Prop := r.status = .BLOCK ↔ r.reasons ≠ []

/-- The serializable projection of a result: status, reasons and scores
with the transient metadata dropped. -/
def resultStrip (r : GuardrailResult) : GuardrailResult :=
  ⟨r.status, r.reasons, r.scores, Meta.empty⟩

/-- Sample sha256 stand-in for witnesses (any concrete function works for
the statements that do not hypothesize collision-freedom). -/
def sampleSha : Str → Str := id

/-- Sample byte-level sha256 stand-in for witnesses. -/
def sampleShaB : List Nat → Str := fun bs => bs.map fun n => Char.ofNat (48 + n % 10)

/-- Sample food identification outcome. -/
def sampleFood : FoodInfo := ⟨chars "pizza", 90, [(chars "pizza", 90)]⟩

/-- Oracle bundle in which every classifier collaborator raises. -/
def embFailOracles : Oracles :=
  ⟨.error (chars "model load failed"), .error (chars "clip offline"),
   sampleFood, .error (chars "cannot identify image file"), fun _ => chars "0.00"⟩

/-- Oracle bundle whose CLIP call returns a probability vector dominated
by a negative label. -/
def clipLowOracles : Oracles :=
  ⟨.ok (1/2), .ok [1/10, 1/10, 1/10, 1/10, 1/10, 9/10],
   sampleFood, .ok (100, 100, ⟨7⟩), fun _ => chars "0.10"⟩

/-!
Claim theorems.
-/

/-- Claim C4: the fingerprint is sha256 of the prompt, a `|` separator and
(when an image is present) the hex digest of the image bytes; identical
inputs give identical fingerprints, and, absent sha256 collisions,
identical prompts with differing (non-empty) image bytes give different
fingerprints. -/
theorem fingerprint_determinism_separation (sha : Str → Str) (shaB : List Nat → Str)
    (p : Str) (bs bs1 bs2 : List Nat)
    (hinj : Function.Injective sha)
    (hb : bs ≠ []) (h1 : bs1 ≠ []) (h2 : bs2 ≠ [])
    (hcoll : shaB bs1 ≠ shaB bs2) :
    request_fingerprint sha shaB p (some bs) = sha (p ++ '|' :: shaB bs) ∧
    request_fingerprint sha shaB p none = sha (p ++ ['|']) ∧
    request_fingerprint sha shaB p (some bs1) ≠ request_fingerprint sha shaB p (some bs2) := by
  have keyEq : ∀ bs' : List Nat, bs' ≠ [] →
      request_fingerprint sha shaB p (some bs') = sha (p ++ '|' :: shaB bs') := by
    intro bs' hbs'
    cases bs' with
    | nil => exact absurd rfl hbs'
    | cons b t =>
      show compute_hash sha p (some (shaB (b :: t))) = _
      unfold compute_hash
      cases hsb : shaB (b :: t) <;> simp
  refine ⟨keyEq bs hb, rfl, ?_⟩
  rw [keyEq bs1 h1, keyEq bs2 h2]
  intro hEq
  have hdata := hinj hEq
  have := List.append_cancel_left hdata
  exact hcoll (by injection this)

/-- Witness for C4 at concrete inputs. -/
theorem fingerprint_determinism_separation_witness :
    request_fingerprint sampleSha sampleShaB (chars "hello") (some [0]) =
      sampleSha (chars "hello" ++ '|' :: sampleShaB [0]) ∧
    request_fingerprint sampleSha sampleShaB (chars "hello") none =
      sampleSha (chars "hello" ++ ['|']) ∧
    request_fingerprint sampleSha sampleShaB (chars "hello") (some [0]) ≠
      request_fingerprint sampleSha sampleShaB (chars "hello") (some [1]) :=
  fingerprint_determinism_separation sampleSha sampleShaB (chars "hello")
    [0] [0] [1] (fun _ _ h => h) (by decide) (by decide) (by decide) (by decide)

/-- Counterexample to claim C5 as stated: with empty image bytes the
computed key is identical to the no-image key (the engine treats falsy
image bytes as absent), here at the concrete prompt `"hello"`. -/
theorem empty_image_key_collision :
    request_fingerprint sampleSha sampleShaB (chars "hello") (some []) =
    request_fingerprint sampleSha sampleShaB (chars "hello") none := rfl

/-- Claim C5 (amended): the fingerprint computation does not distinguish a
request with no image from one with zero-length image bytes: for every
prompt (and any digest functions) the two keys coincide. -/
theorem empty_image_key_eq_no_image (sha : Str → Str) (shaB : List Nat → Str)
    (p : Str) :
    request_fingerprint sha shaB p (some []) =
    request_fingerprint sha shaB p none := rfl

/-- Claim C10: empty image bytes behave exactly as no image: same
fingerprint, same routing, and the whole `process_request` call returns
the same result and cache state. -/
theorem empty_bytes_behave_as_none (sha : Str → Str) (shaB : List Nat → Str)
    (o : Oracles) (c : Cache) (p : Str) :
    request_fingerprint sha shaB p (some []) = request_fingerprint sha shaB p none ∧
    is_image_analysis_use_case p (some []) = is_image_analysis_use_case p none ∧
    process_request sha shaB o c p (some []) = process_request sha shaB o c p none :=
  ⟨rfl, rfl, rfl⟩

/-- Claim C6: a prompt that exceeds the length cap is blocked with only
the length-cap reason, even when it also contains denylist terms: the
length check runs first and short-circuits the later stages. -/
theorem length_cap_shortcircuits_denylist (o : Oracles) (c : Cache) (p : Str)
    (i : Option (List Nat)) (rh : Str)
    (hlen : p.length > GUARDRAILS_MAX_PROMPT_CHARS)
    (hdeny : DENYLIST_TERMS.any (fun t => containsSub (lowerStr p) t) = true) :
    (process_prompt_analysis o c p i rh).1.status = .BLOCK ∧
    (process_prompt_analysis o c p i rh).1.reasons = [chars "Prompt too long"] := by
  unfold process_prompt_analysis
  rw [if_pos hlen]
  exact ⟨rfl, rfl⟩

/-- Witness for C6: an 804-character prompt containing the denylist term
`kill`. -/
theorem length_cap_shortcircuits_denylist_witness :
    ((process_prompt_analysis embFailOracles [] (chars "kill" ++ List.replicate 800 'x')
        none (chars "h")).1.status = .BLOCK ∧
     (process_prompt_analysis embFailOracles [] (chars "kill" ++ List.replicate 800 'x')
        none (chars "h")).1.reasons = [chars "Prompt too long"]) :=
  length_cap_shortcircuits_denylist embFailOracles [] (chars "kill" ++ List.replicate 800 'x')
    none (chars "h") (by decide) (by decide)

/-- The image-analysis template prompt named by claim C7. -/
def templatePrompt : Str :=
  chars "generate image with this image attached in center of the background"

/-- Claim C7: `process_request` takes the image-led path exactly when
image bytes are (truthily) present and the trimmed, lowercased prompt
contains one of the fixed template phrases; the template prompt with an
image routes image-led and without an image routes prompt-led. -/
theorem routing_rule (sha : Str → Str) (shaB : List Nat → Str) (o : Oracles)
    (c : Cache) (p : Str) (i : Option (List Nat))
    (hmiss : get_cached_decision c (request_fingerprint sha shaB p i) = none) :
    (is_image_analysis_use_case p i = true ↔
      truthyBytes i = true ∧
      IMAGE_ANALYSIS_PROMPT_PATTERNS.any
        (fun pattern => containsSub (stripStr (lowerStr p)) (lowerStr pattern)) = true) ∧
    process_request sha shaB o c p i =
      (if is_image_analysis_use_case p i then
        process_image_analysis o c p (i.getD []) (request_fingerprint sha shaB p i)
      else
        process_prompt_analysis o c p i (request_fingerprint sha shaB p i)) ∧
    is_image_analysis_use_case templatePrompt (some [0]) = true ∧
    is_image_analysis_use_case templatePrompt none = false := by
  refine ⟨?_, ?_, by decide, by decide⟩
  · unfold is_image_analysis_use_case
    cases h : truthyBytes i <;> simp [h]
  · unfold process_request
    simp only [hmiss]

/-- Witness for C7 at a concrete cache-miss state. -/
theorem routing_rule_witness :
    (is_image_analysis_use_case templatePrompt (some [0]) = true ↔
      truthyBytes (some [0]) = true ∧
      IMAGE_ANALYSIS_PROMPT_PATTERNS.any
        (fun pattern => containsSub (stripStr (lowerStr templatePrompt)) (lowerStr pattern)) = true) ∧
    process_request sampleSha sampleShaB embFailOracles [] templatePrompt (some [0]) =
      (if is_image_analysis_use_case templatePrompt (some [0]) then
        process_image_analysis embFailOracles [] templatePrompt ((some [0]).getD [])
          (request_fingerprint sampleSha sampleShaB templatePrompt (some [0]))
      else
        process_prompt_analysis embFailOracles [] templatePrompt (some [0])
          (request_fingerprint sampleSha sampleShaB templatePrompt (some [0]))) ∧
    is_image_analysis_use_case templatePrompt (some [0]) = true ∧
    is_image_analysis_use_case templatePrompt none = false :=
  routing_rule sampleSha sampleShaB embFailOracles [] templatePrompt (some [0]) rfl

/-- Claim C3: when the CLIP call returns a probability vector, the image
check blocks exactly when the top positive-label score is below the top
negative-label score plus the margin; the decision is a function of those
two scores and the margin alone, so the NSFW classification of the
winning negative label can change only the reason text. -/
theorem clip_margin_rule (o : Oracles) (pil : Option PILImage) (margin : ℚ)
    (identify_type : Bool) (probs : List ℚ) (max_pos max_neg : ℚ)
    (hclip : o.clip = .ok probs)
    (hmp : (probs.take POS_LABELS.length).max? = some max_pos)
    (hmn : (probs.drop POS_LABELS.length).max? = some max_neg) :
    ((check_food_clip o pil margin identify_type).status = .BLOCK ↔
      max_pos < max_neg + margin) ∧
    (check_food_clip o pil margin identify_type).status =
      (if max_pos < max_neg + margin then .BLOCK else .PASS) := by
  have hstat : (check_food_clip o pil margin identify_type).status =
      (if max_pos < max_neg + margin then .BLOCK else .PASS) := by
    unfold check_food_clip
    rw [hclip]
    simp only [hmp, hmn]
    by_cases h : max_pos < max_neg + margin
    · rw [if_pos h, if_pos h]
      cases NEG_LABELS.get? ((probs.drop POS_LABELS.length).indexOf max_neg) <;> rfl
    · rw [if_neg h, if_neg h]
      cases identify_type <;> rfl
  refine ⟨?_, hstat⟩
  rw [hstat]
  by_cases h : max_pos < max_neg + margin <;> simp [h]

/-- Witness for C3: a concrete six-entry probability vector whose top
negative score dominates. -/
theorem clip_margin_rule_witness :
    ((check_food_clip clipLowOracles (some ⟨7⟩) (1/10) true).status = .BLOCK ↔
      (1/10 : ℚ) < 9/10 + 1/10) ∧
    (check_food_clip clipLowOracles (some ⟨7⟩) (1/10) true).status =
      (if (1/10 : ℚ) < 9/10 + 1/10 then .BLOCK else .PASS) :=
  clip_margin_rule clipLowOracles (some ⟨7⟩) (1/10) true
    [1/10, 1/10, 1/10, 1/10, 1/10, 9/10] (1/10) (9/10) rfl
    (by simp [POS_LABELS, List.max?]) (by simp [POS_LABELS, List.max?])

/-- Claim C1: fail-closed on classifier failure.  For a prompt that
reaches the embedding stage (no fast pattern block and no keyword match),
an exception from the embedding collaborator makes `check_food_domain`
return BLOCK carrying the failure text, and consequently `process_request`
(on a cache miss, routed prompt-led, with the earlier stages passing)
returns BLOCK, never PASS. -/
theorem domain_fail_closed (sha : Str → Str) (shaB : List Nat → Str)
    (o : Oracles) (c : Cache) (p : Str) (i : Option (List Nat)) (e : Str) (θ : ℚ)
    (hemb : o.emb = .error e)
    (h0 : domain_stage0_block (stripStr (lowerStr p)) = false)
    (hk : domain_keyword_matches (stripStr (lowerStr p)) = [])
    (hmiss : get_cached_decision c (request_fingerprint sha shaB p i) = none)
    (hroute : is_image_analysis_use_case p i = false)
    (hlen : ¬ p.length > GUARDRAILS_MAX_PROMPT_CHARS)
    (hinj : (check_injection p).status = .PASS)
    (hpol : (check_policy p).status = .PASS) :
    (check_food_domain o p θ).status = .BLOCK ∧
    (check_food_domain o p θ).reasons = [chars "Domain check failed: " ++ e] ∧
    (process_request sha shaB o c p i).1.status = .BLOCK := by
  have hdom : ∀ θ' : ℚ, check_food_domain o p θ' =
      ⟨.BLOCK, [chars "Domain check failed: " ++ e], [], Meta.empty⟩ := by
    intro θ'
    unfold check_food_domain
    simp only [h0, hk, hemb]
    rfl
  refine ⟨by rw [hdom θ], by rw [hdom θ], ?_⟩
  unfold process_request
  simp only [hmiss, hroute]
  unfold process_prompt_analysis
  rw [if_neg hlen]
  simp only [hinj, hpol, hdom (11/20)]
  rfl

/-- Witness for C1: a prompt with no food keyword, no fast-block pattern
and no policy/injection hit, with an embedding collaborator that raises. -/
theorem domain_fail_closed_witness :
    (check_food_domain embFailOracles (chars "write a python script for sorting")
       (11/20)).status = .BLOCK ∧
    (check_food_domain embFailOracles (chars "write a python script for sorting")
       (11/20)).reasons = [chars "Domain check failed: " ++ chars "model load failed"] ∧
    (process_request sampleSha sampleShaB embFailOracles []
       (chars "write a python script for sorting") none).1.status = .BLOCK :=
  domain_fail_closed sampleSha sampleShaB embFailOracles []
    (chars "write a python script for sorting") none (chars "model load failed") (11/20)
    rfl (by decide) (by decide) rfl (by decide) (by decide) (by decide) (by decide)

/-!
Reasons/status invariant (used by claim C2): every stage and the engine
produce a non-empty reasons list exactly on BLOCK.
-/

/-- Stage `check_injection` satisfies the reasons/status invariant. -/
theorem check_injection_reasons (p : Str) : ReasonsOk (check_injection p) := by
  unfold check_injection
  dsimp only
  repeat' split
  all_goals simp [ReasonsOk]

/-- Stage `check_policy` satisfies the reasons/status invariant. -/
theorem check_policy_reasons (p : Str) : ReasonsOk (check_policy p) := by
  unfold check_policy
  dsimp only
  repeat' split
  all_goals simp [ReasonsOk]

/-- Stage `check_food_domain` satisfies the reasons/status invariant. -/
theorem check_food_domain_reasons (o : Oracles) (p : Str) (θ : ℚ) :
    ReasonsOk (check_food_domain o p θ) := by
  unfold check_food_domain
  dsimp only
  repeat' split
  all_goals simp [ReasonsOk, domain_pattern_block_result]

/-- Stage `check_hygiene` satisfies the reasons/status invariant. -/
theorem check_hygiene_reasons (o : Oracles) (bs : List Nat) :
    ReasonsOk (check_hygiene o bs) := by
  unfold check_hygiene
  repeat' split
  all_goals simp [ReasonsOk]

/-- Stage `check_food_clip` satisfies the reasons/status invariant. -/
theorem check_food_clip_reasons (o : Oracles) (pil : Option PILImage)
    (margin : ℚ) (idt : Bool) : ReasonsOk (check_food_clip o pil margin idt) := by
  unfold check_food_clip
  cases o.clip with
  | error e => simp [ReasonsOk]
  | ok probs =>
    dsimp only
    cases (probs.take POS_LABELS.length).max? with
    | none => simp [ReasonsOk]
    | some max_pos =>
      cases (probs.drop POS_LABELS.length).max? with
      | none => simp [ReasonsOk]
      | some max_neg =>
        dsimp only
        by_cases hm : max_pos < max_neg + margin
        · rw [if_pos hm]
          cases NEG_LABELS.get? ((probs.drop POS_LABELS.length).indexOf max_neg) <;>
            simp [ReasonsOk]
        · rw [if_neg hm]
          cases idt <;> simp [ReasonsOk]

/-- The image-led handler satisfies the reasons/status invariant. -/
theorem process_image_analysis_reasons (o : Oracles) (c : Cache) (p : Str)
    (bs : List Nat) (h : Str) : ReasonsOk (process_image_analysis o c p bs h).1 := by
  simp only [process_image_analysis]
  split
  · next hb =>
    have := (check_hygiene_reasons o bs).mp hb
    simpa [ReasonsOk, engine_block] using this
  · split
    · next hb =>
      have := (check_food_clip_reasons o (check_hygiene o bs).metadata.pil_image
        (1/10) true).mp hb
      simpa [ReasonsOk, engine_block] using this
    · simp [ReasonsOk]

/-- The prompt-led handler satisfies the reasons/status invariant. -/
theorem process_prompt_analysis_reasons (o : Oracles) (c : Cache) (p : Str)
    (i : Option (List Nat)) (h : Str) :
    ReasonsOk (process_prompt_analysis o c p i h).1 := by
  simp only [process_prompt_analysis]
  split
  · simp [ReasonsOk, engine_block]
  · split
    · next hb =>
      have := (check_injection_reasons p).mp hb
      simpa [ReasonsOk, engine_block] using this
    · split
      · next hb =>
        have := (check_policy_reasons p).mp hb
        simpa [ReasonsOk, engine_block] using this
      · split
        · next hb =>
          have := (check_food_domain_reasons o p (11/20)).mp hb
          simpa [ReasonsOk, engine_block] using this
        · split
          · split
            · next hb =>
              have := (check_hygiene_reasons o (i.getD [])).mp hb
              simpa [ReasonsOk, engine_block, List.map_eq_nil_iff] using this
            · split
              · next hb =>
                have := (check_food_clip_reasons o
                  (check_hygiene o (i.getD [])).metadata.pil_image (1/10) true).mp hb
                simpa [ReasonsOk, engine_block, List.map_eq_nil_iff] using this
              · simp [ReasonsOk]
          · simp [ReasonsOk]

/-- Function `process_request` satisfies the reasons/status invariant whenever the
incoming cache state does (its entries were themselves produced by the
engine). -/
theorem process_request_reasons (sha : Str → Str) (shaB : List Nat → Str)
    (o : Oracles) (c : Cache) (p : Str) (i : Option (List Nat))
    (hc : ∀ e ∈ c, ReasonsOk e.2) :
    ReasonsOk (process_request sha shaB o c p i).1 := by
  cases hhit : get_cached_decision c (request_fingerprint sha shaB p i) with
  | some v =>
    have e1 : (process_request sha shaB o c p i).1 = v := by
      unfold process_request
      simp only [hhit]
    rw [e1]
    unfold get_cached_decision at hhit
    obtain ⟨entry, hfind, hev⟩ := Option.map_eq_some'.mp hhit
    have hmem := List.mem_of_find?_eq_some hfind
    simpa [hev] using hc entry hmem
  | none =>
    have e1 : (process_request sha shaB o c p i).1 =
        (if is_image_analysis_use_case p i then
          process_image_analysis o c p (i.getD []) (request_fingerprint sha shaB p i)
        else
          process_prompt_analysis o c p i (request_fingerprint sha shaB p i)).1 := by
      unfold process_request
      simp only [hhit]
    rw [e1]
    split
    · exact process_image_analysis_reasons o c p (i.getD []) _
    · exact process_prompt_analysis_reasons o c p i _

/-- Claim C2: every `GuardrailResult` returned by `process_request` (given
a cache whose entries satisfy the invariant) and by each individual check
stage has a non-empty reasons list iff its status is BLOCK (so reasons are
empty exactly on PASS). -/
theorem reasons_status_invariant (sha : Str → Str) (shaB : List Nat → Str)
    (o : Oracles) (c : Cache) (p : Str) (i : Option (List Nat))
    (bs : List Nat) (pil : Option PILImage) (θ margin : ℚ) (idt : Bool)
    (hc : ∀ e ∈ c, ReasonsOk e.2) :
    ReasonsOk (process_request sha shaB o c p i).1 ∧
    ReasonsOk (check_injection p) ∧
    ReasonsOk (check_policy p) ∧
    ReasonsOk (check_food_domain o p θ) ∧
    ReasonsOk (check_hygiene o bs) ∧
    ReasonsOk (check_food_clip o pil margin idt) :=
  ⟨process_request_reasons sha shaB o c p i hc,
   check_injection_reasons p, check_policy_reasons p,
   check_food_domain_reasons o p θ, check_hygiene_reasons o bs,
   check_food_clip_reasons o pil margin idt⟩

/-- Witness for C2 on an empty cache and concrete inputs. -/
theorem reasons_status_invariant_witness :
    ReasonsOk (process_request sampleSha sampleShaB embFailOracles []
      (chars "how to cook pasta") none).1 ∧
    ReasonsOk (check_injection (chars "how to cook pasta")) ∧
    ReasonsOk (check_policy (chars "how to cook pasta")) ∧
    ReasonsOk (check_food_domain embFailOracles (chars "how to cook pasta") (11/20)) ∧
    ReasonsOk (check_hygiene embFailOracles [0]) ∧
    ReasonsOk (check_food_clip embFailOracles none (1/10) true) :=
  reasons_status_invariant sampleSha sampleShaB embFailOracles []
    (chars "how to cook pasta") none [0] none (11/20) (1/10) true (by simp)

/-!
Cache-write behavior (used by claims C8 and C9): on a miss each use-case
handler pushes exactly one entry — the serializable projection of the
result it returns — under the request key.
-/

/-- The image-led handler writes exactly the stripped returned result. -/
theorem process_image_analysis_cache (o : Oracles) (c : Cache) (p : Str)
    (bs : List Nat) (h : Str) :
    (process_image_analysis o c p bs h).2 =
      (cacheKey h, resultStrip (process_image_analysis o c p bs h).1) :: c := by
  simp only [process_image_analysis]
  split
  · rfl
  · split <;> rfl

/-- The prompt-led handler writes exactly the stripped returned result. -/
theorem process_prompt_analysis_cache (o : Oracles) (c : Cache) (p : Str)
    (i : Option (List Nat)) (h : Str) :
    (process_prompt_analysis o c p i h).2 =
      (cacheKey h, resultStrip (process_prompt_analysis o c p i h).1) :: c := by
  simp only [process_prompt_analysis]
  repeat' split
  all_goals rfl

/-- On a cache miss, `process_request` leaves the cache extended by
exactly one entry: the stripped returned result under the request key. -/
theorem process_request_miss_cache (sha : Str → Str) (shaB : List Nat → Str)
    (o : Oracles) (c : Cache) (p : Str) (i : Option (List Nat))
    (hmiss : get_cached_decision c (request_fingerprint sha shaB p i) = none) :
    (process_request sha shaB o c p i).2 =
      (cacheKey (request_fingerprint sha shaB p i),
       resultStrip (process_request sha shaB o c p i).1) :: c := by
  have e1 : process_request sha shaB o c p i =
      (if is_image_analysis_use_case p i then
        process_image_analysis o c p (i.getD []) (request_fingerprint sha shaB p i)
      else
        process_prompt_analysis o c p i (request_fingerprint sha shaB p i)) := by
    unfold process_request
    simp only [hmiss]
  rw [e1]
  split
  · exact process_image_analysis_cache o c p (i.getD []) _
  · exact process_prompt_analysis_cache o c p i _

/-- Claim C8: every value the engine writes to the decision cache is
sanitized: any entry of the outgoing cache state either was already
present or carries the empty metadata dict (so the decoded `pil_image`
handle of a PASS result never reaches the cache). -/
theorem cache_writes_sanitized (sha : Str → Str) (shaB : List Nat → Str)
    (o : Oracles) (c : Cache) (p : Str) (i : Option (List Nat))
    (e : Str × GuardrailResult)
    (he : e ∈ (process_request sha shaB o c p i).2) :
    e ∈ c ∨ (e.2.metadata = Meta.empty ∧ e.2.metadata.pil_image = none) := by
  cases hhit : get_cached_decision c (request_fingerprint sha shaB p i) with
  | some v =>
    have e1 : (process_request sha shaB o c p i).2 = c := by
      unfold process_request
      simp only [hhit]
    rw [e1] at he
    exact .inl he
  | none =>
    rw [process_request_miss_cache sha shaB o c p i hhit] at he
    rcases List.mem_cons.mp he with hhead | htail
    · right
      rw [hhead]
      exact ⟨rfl, rfl⟩
    · exact .inl htail

/-- Witness for C8: the single entry written for the prompt `"pizza"` on
an empty cache has empty metadata. -/
theorem cache_writes_sanitized_witness :
    (cacheKey (chars "pizza|"),
      resultStrip (process_request sampleSha sampleShaB embFailOracles []
        (chars "pizza") none).1) ∈
      (process_request sampleSha sampleShaB embFailOracles [] (chars "pizza") none).2 ∧
    ((cacheKey (chars "pizza|"),
      resultStrip (process_request sampleSha sampleShaB embFailOracles []
        (chars "pizza") none).1) ∈ ([] : Cache) ∨
     ((resultStrip (process_request sampleSha sampleShaB embFailOracles []
        (chars "pizza") none).1).metadata = Meta.empty ∧
      (resultStrip (process_request sampleSha sampleShaB embFailOracles []
        (chars "pizza") none).1).metadata.pil_image = none)) := by
  have hmem : (cacheKey (chars "pizza|"),
      resultStrip (process_request sampleSha sampleShaB embFailOracles []
        (chars "pizza") none).1) ∈
      (process_request sampleSha sampleShaB embFailOracles [] (chars "pizza") none).2 := by
    rw [process_request_miss_cache sampleSha sampleShaB embFailOracles []
      (chars "pizza") none rfl]
    exact List.mem_cons_self _ _
  exact ⟨hmem, cache_writes_sanitized sampleSha sampleShaB embFailOracles []
    (chars "pizza") none _ hmem⟩

/-- Claim C9: idempotence via the cache.  A second `process_request` call
on the cache state left by a first call (same digest functions, same
prompt and image, no eviction, arbitrary — even different — classifier
outcomes) returns the same status, reasons and scores as the first. -/
theorem cache_idempotent (sha : Str → Str) (shaB : List Nat → Str)
    (o1 o2 : Oracles) (c : Cache) (p : Str) (i : Option (List Nat)) :
    (process_request sha shaB o2 (process_request sha shaB o1 c p i).2 p i).1.status =
      (process_request sha shaB o1 c p i).1.status ∧
    (process_request sha shaB o2 (process_request sha shaB o1 c p i).2 p i).1.reasons =
      (process_request sha shaB o1 c p i).1.reasons ∧
    (process_request sha shaB o2 (process_request sha shaB o1 c p i).2 p i).1.scores =
      (process_request sha shaB o1 c p i).1.scores := by
  cases hhit : get_cached_decision c (request_fingerprint sha shaB p i) with
  | some v =>
    have e1 : process_request sha shaB o1 c p i = (v, c) := by
      unfold process_request
      simp only [hhit]
    have e2 : process_request sha shaB o2 c p i = (v, c) := by
      unfold process_request
      simp only [hhit]
    rw [e1, e2]
    exact ⟨rfl, rfl, rfl⟩
  | none =>
    have hc2 := process_request_miss_cache sha shaB o1 c p i hhit
    set res1 := process_request sha shaB o1 c p i with hres1
    have hget : get_cached_decision res1.2 (request_fingerprint sha shaB p i) =
        some (resultStrip res1.1) := by
      rw [hc2]
      unfold get_cached_decision
      simp [List.find?]
    have e2 : (process_request sha shaB o2 res1.2 p i).1 = resultStrip res1.1 := by
      unfold process_request
      simp only [hget]
    rw [e2]
    exact ⟨rfl, rfl, rfl⟩

end Guardrail
